/-!
Verification development for the phase-2 trusted-header authenticator and
task CRUD routes of the todo application
(backend/app/auth/dependencies.py, backend/app/routes/tasks.py,
backend/app/core/config.py).

The authenticator's cryptographic dependencies (hashlib.sha256, hmac) are
embedded as executable Lean functions implementing FIPS 180-4 SHA-256 and
RFC 2104 HMAC over byte lists (each byte a `Nat < 256`), with 32-bit words
represented as `Nat` reduced modulo 2^32.
-/

/-- Truncate to a 32-bit word, as Python's fixed-width SHA-256 arithmetic does. -/
def w32 (n : Nat) : Nat := n % 4294967296

/-- Right rotation of a 32-bit word by `b` bits. -/
def rotr32 (b n : Nat) : Nat := w32 ((n >>> b) ||| (n <<< (32 - b)))

/-- SHA-256 small sigma 0 (message schedule). -/
def smallSigma0 (x : Nat) : Nat := rotr32 7 x ^^^ rotr32 18 x ^^^ (x >>> 3)

/-- SHA-256 small sigma 1 (message schedule). -/
def smallSigma1 (x : Nat) : Nat := rotr32 17 x ^^^ rotr32 19 x ^^^ (x >>> 10)

/-- SHA-256 big Sigma 0 (compression). -/
def bigSigma0 (x : Nat) : Nat := rotr32 2 x ^^^ rotr32 13 x ^^^ rotr32 22 x

/-- SHA-256 big Sigma 1 (compression). -/
def bigSigma1 (x : Nat) : Nat := rotr32 6 x ^^^ rotr32 11 x ^^^ rotr32 25 x

/-- SHA-256 choice function; complement is taken within 32 bits. -/
def shaCh (x y z : Nat) : Nat := (x &&& y) ^^^ ((x ^^^ 4294967295) &&& z)

/-- SHA-256 majority function. -/
def shaMaj (x y z : Nat) : Nat := (x &&& y) ^^^ (x &&& z) ^^^ (y &&& z)

/-- The 64 SHA-256 round constants (FIPS 180-4 section 4.2.2). -/
def shaK : List Nat :=
  [1116352408, 1899447441, 3049323471, 3921009573, 961987163, 1508970993,
   2453635748, 2870763221, 3624381080, 310598401, 607225278, 1426881987,
   1925078388, 2162078206, 2614888103, 3248222580, 3835390401, 4022224774,
   264347078, 604807628, 770255983, 1249150122, 1555081692, 1996064986,
   2554220882, 2821834349, 2952996808, 3210313671, 3336571891, 3584528711,
   113926993, 338241895, 666307205, 773529912, 1294757372, 1396182291,
   1695183700, 1986661051, 2177026350, 2456956037, 2730485921, 2820302411,
   3259730800, 3345764771, 3516065817, 3600352804, 4094571909, 275423344,
   430227734, 506948616, 659060556, 883997877, 958139571, 1322822218,
   1537002063, 1747873779, 1955562222, 2024104815, 2227730452, 2361852424,
   2428436474, 2756734187, 3204031479, 3329325298]

/-- Running hash state: eight 32-bit working variables. -/
structure Sha256State where
  a : Nat
  b : Nat
  c : Nat
  d : Nat
  e : Nat
  f : Nat
  g : Nat
  h : Nat
deriving DecidableEq

/-- Initial hash value (FIPS 180-4 section 5.3.3). -/
def shaInit : Sha256State :=
  ⟨1779033703, 3144134277, 1013904242, 2773480762, 1359893119, 2600822924, 528734635, 1541459225⟩

/-- Group bytes into big-endian 32-bit words (input length a multiple of 4). -/
def bytesToWords : List Nat → List Nat
  | b0 :: b1 :: b2 :: b3 :: rest =>
      (((b0 * 256 + b1) * 256 + b2) * 256 + b3) :: bytesToWords rest
  | _ => []

/-- One SHA-256 round; `kw` is the (already truncated) sum of the round constant and schedule word. -/
def sha256Round (st : Sha256State) (kw : Nat) : Sha256State :=
  let t1 := w32 (st.h + bigSigma1 st.e + shaCh st.e st.f st.g + kw)
  let t2 := w32 (bigSigma0 st.a + shaMaj st.a st.b st.c)
  ⟨w32 (t1 + t2), st.a, st.b, st.c, w32 (st.d + t1), st.e, st.f, st.g⟩

/-- Extend the 16 block words to the 64-entry message schedule. -/
def sha256Schedule (w16 : List Nat) : List Nat :=
  (List.range 48).foldl (fun ws _ =>
    let t := ws.length
    ws ++ [w32 (ws.getD (t - 16) 0 + smallSigma0 (ws.getD (t - 15) 0)
                + ws.getD (t - 7) 0 + smallSigma1 (ws.getD (t - 2) 0))]) w16

/-- Process one 64-byte block. -/
def sha256Block (st : Sha256State) (block : List Nat) : Sha256State :=
  let ws := sha256Schedule (bytesToWords block)
  let st2 := (shaK.zip ws).foldl (fun s p => sha256Round s (w32 (p.1 + p.2))) st
  ⟨w32 (st.a + st2.a), w32 (st.b + st2.b), w32 (st.c + st2.c), w32 (st.d + st2.d),
   w32 (st.e + st2.e), w32 (st.f + st2.f), w32 (st.g + st2.g), w32 (st.h + st2.h)⟩

/-- Big-endian 4-byte serialization of a 32-bit word. -/
def wordBE (n : Nat) : List Nat :=
  [n / 16777216 % 256, n / 65536 % 256, n / 256 % 256, n % 256]

/-- Big-endian 8-byte serialization of the bit length. -/
def lenBE8 (n : Nat) : List Nat :=
  [(n >>> 56) % 256, (n >>> 48) % 256, (n >>> 40) % 256, (n >>> 32) % 256,
   (n >>> 24) % 256, (n >>> 16) % 256, (n >>> 8) % 256, n % 256]

/-- SHA-256 padding: append 0x80, zeros, and the 64-bit big-endian bit length. -/
def padMessage (msg : List Nat) : List Nat :=
  let len := msg.length
  let zeros := (55 + 64 - len % 64) % 64
  msg ++ 128 :: List.replicate zeros 0 ++ lenBE8 (len * 8)

/-- Split a byte list into 64-byte chunks. -/
def sha256Chunks (l : List Nat) : List (List Nat) :=
  if hl : l = [] then [] else l.take 64 :: sha256Chunks (l.drop 64)
termination_by l.length
decreasing_by
  simp only [List.length_drop]
  have hp : 0 < l.length := List.length_pos.mpr hl
  omega

/-- SHA-256 digest of a byte list: 32 bytes. -/
def sha256Bytes (msg : List Nat) : List Nat :=
  let st := (sha256Chunks (padMessage msg)).foldl sha256Block shaInit
  wordBE st.a ++ wordBE st.b ++ wordBE st.c ++ wordBE st.d
    ++ wordBE st.e ++ wordBE st.f ++ wordBE st.g ++ wordBE st.h

/-- RFC 2104 HMAC-SHA256 over byte lists (block size 64). -/
def hmacSha256 (key msg : List Nat) : List Nat :=
  let k0 := if key.length > 64 then sha256Bytes key else key
  let kp := k0 ++ List.replicate (64 - k0.length) 0
  let ipadded := kp.map (fun b => b ^^^ 54)
  let opadded := kp.map (fun b => b ^^^ 92)
  sha256Bytes (opadded ++ sha256Bytes (ipadded ++ msg))

/-- Lowercase hex digit for a value below 16. -/
def hexDigitChar (n : Nat) : Char :=
  if n < 10 then Char.ofNat (48 + n) else Char.ofNat (87 + n)

/-- Lowercase hex rendering of a byte list, two digits per byte. -/
def bytesToHexChars : List Nat → List Char
  | [] => []
  | b :: bs => hexDigitChar (b / 16) :: hexDigitChar (b % 16) :: bytesToHexChars bs

/-- Model of Python `hmac.new(key, msg, hashlib.sha256).hexdigest()`. -/
def hmacSha256Hex (key msg : List Nat) : String :=
  String.mk (bytesToHexChars (hmacSha256 key msg))

/-- UTF-8 bytes of a string, as Python's `str.encode` produces. -/
def utf8Bytes (s : String) : List Nat :=
  s.toUTF8.toList.map (fun b => b.toNat)

/-- Model of Python `int(s)` on a decimal string: strip surrounding whitespace,
optional sign, then one or more ASCII digits.  (Python's underscore digit
grouping and non-ASCII digits are not modelled; no claim depends on them.) -/
def digitsToNat : List Char → Option Nat
  | [] => none
  | cs => if cs.all Char.isDigit then some (cs.foldl (fun a c => a * 10 + (c.toNat - 48)) 0) else none

/-- Strip leading and trailing whitespace, as Python `int` does before parsing. -/
def stripWs (cs : List Char) : List Char :=
  ((cs.dropWhile Char.isWhitespace).reverse.dropWhile Char.isWhitespace).reverse

/-- Model of Python `int(s)`; `none` models `ValueError`. -/
def pythonInt (s : String) : Option Int :=
  match stripWs s.data with
  | '+' :: ds => (digitsToNat ds).map (fun n => (n : Int))
  | '-' :: ds => (digitsToNat ds).map (fun n => -(n : Int))
  | ds => (digitsToNat ds).map (fun n => (n : Int))

/-- ASCII hex digit test, upper or lower case, as `int(s, 16)` accepts. -/
def isHexDigitChar (c : Char) : Bool :=
  c.isDigit || ('a' ≤ c && c ≤ 'f') || ('A' ≤ c && c ≤ 'F')

/-- Numeric value of a hex digit. -/
def hexDigitVal (c : Char) : Nat :=
  if c.isDigit then c.toNat - 48
  else if 'a' ≤ c && c ≤ 'f' then c.toNat - 87
  else c.toNat - 55

/-- Value of a hex digit string. -/
def hexNatVal (cs : List Char) : Nat :=
  cs.foldl (fun a c => a * 16 + hexDigitVal c) 0

/-- Fuel-indexed worker for `removePattern`; the fuel is structural so the
function reduces definitionally.  Each step consumes at least one character,
so fuel equal to the list length is always sufficient. -/
def removePatternAux (pat : List Char) : Nat → List Char → List Char
  | _, [] => []
  | 0, l => l
  | fuel + 1, c :: cs =>
      if pat ≠ [] ∧ pat.isPrefixOf (c :: cs) then
        removePatternAux pat fuel (List.drop (pat.length - 1) cs)
      else
        c :: removePatternAux pat fuel cs

/-- Left-to-right non-overlapping removal of every occurrence of `pat`,
as Python `str.replace(pat, "")` performs. -/
def removePattern (pat l : List Char) : List Char :=
  removePatternAux pat l.length l

/-- The two brace characters stripped by CPython's `hex.strip`. -/
def isBraceChar (c : Char) : Bool :=
  c = Char.ofNat 123 || c = Char.ofNat 125

/-- Strip leading and trailing brace characters, as Python `str.strip` with a
two-character strip set does. -/
def stripBraceEnds (cs : List Char) : List Char :=
  ((cs.dropWhile isBraceChar).reverse.dropWhile isBraceChar).reverse

/-- Model of CPython `uuid.UUID(s)`: remove every "urn:" and "uuid:" substring,
strip surrounding braces, remove hyphens, then require exactly 32 hex digits;
the result is the 128-bit integer value.  `none` models `ValueError`.
(The sign/whitespace tolerance of the inner `int(hex, 16)` call on exotic
32-character inputs is not modelled; no claim depends on it.) -/
def pythonUUID (s : String) : Option Nat :=
  let t1 := removePattern "urn:".data s.data
  let t2 := removePattern "uuid:".data t1
  let t3 := (stripBraceEnds t2).filter (fun c => c ≠ '-')
  if t3.length = 32 && t3.all isHexDigitChar then some (hexNatVal t3) else none

/-- Exactly `digits` lowercase hex characters of `n`, most significant first. -/
def natToHexPad (n : Nat) : Nat → List Char
  | 0 => []
  | d + 1 => natToHexPad (n / 16) d ++ [hexDigitChar (n % 16)]

/-- Canonical 8-4-4-4-12 lowercase rendering of a UUID value, as Python
`str(uuid)` produces (used in the provisioning email). -/
def uuidToString (n : Nat) : String :=
  let h := natToHexPad n 32
  String.mk ((h.take 8) ++ '-' :: (h.drop 8).take 4 ++ '-' :: (h.drop 12).take 4
    ++ '-' :: (h.drop 16).take 4 ++ '-' :: h.drop 20)

/-- Decidable equality for `Except`, so results can be compared concretely. -/
instance {ε α : Type} [DecidableEq ε] [DecidableEq α] : DecidableEq (Except ε α) := fun x y =>
  match x, y with
  | .error e, .error e2 =>
      if h : e = e2 then .isTrue (by rw [h]) else .isFalse (by intro hc; cases hc; exact h rfl)
  | .error _, .ok _ => .isFalse (by intro hc; cases hc)
  | .ok _, .error _ => .isFalse (by intro hc; cases hc)
  | .ok a, .ok a2 =>
      if h : a = a2 then .isTrue (by rw [h]) else .isFalse (by intro hc; cases hc; exact h rfl)

/-!
## Configuration (backend/app/core/config.py)
-/

/-- The fields of `Settings` that `validate` inspects. -/
structure Settings where
  DATABASE_URL : String
  BETTER_AUTH_SECRET : String
deriving DecidableEq

/-- Model of `Settings.validate`: error models the raised `ValueError`. -/
def Settings.validate (s : Settings) : Except String Unit :=
  let missing_vars :=
    (if s.DATABASE_URL = "" then ["DATABASE_URL"] else [])
      ++ (if s.BETTER_AUTH_SECRET = "" then ["BETTER_AUTH_SECRET"] else [])
  if missing_vars ≠ [] then
    .error ("Missing required environment variables: " ++ String.intercalate ", " missing_vars)
  else if s.BETTER_AUTH_SECRET.length < 32 then
    .error "BETTER_AUTH_SECRET must be at least 32 characters long for security"
  else
    .ok ()

/-- Outcome of importing the config module at process start. -/
inductive StartupOutcome where
  | started (warning : Option String)
  | aborted (msg : String)
deriving DecidableEq

/-- Model of the module-level code of config.py: `settings.validate()` is
called inside a try/except that catches `ValueError`, prints the message and
continues, so the import completes (the process starts) on every input. -/
def configStartup (s : Settings) : StartupOutcome :=
  match s.validate with
  | .ok () => .started none
  | .error e => .started (some ("Configuration validation failed: " ++ e))

/-!
## Database state

The authenticator reads and writes only the `users` table; the task routes
read and write only the `tasks` table.  `nextId` models the autoincrement
sequence behind `Task.id`.  UUIDs are represented by their 128-bit value.
-/

/-- A row of the `users` table (backend/app/models/user.py). -/
structure UserRow where
  id : Nat
  email : String
  password_hash : String
  created_at : Nat
  updated_at : Nat
deriving DecidableEq

/-- A row of the `tasks` table (backend/app/models/task.py). -/
structure TaskRow where
  id : Nat
  user_id : Nat
  description : String
  completed : Bool
  created_at : Nat
  updated_at : Nat
deriving DecidableEq

/-- The visible database state. -/
structure DBState where
  users : List UserRow
  tasks : List TaskRow
  nextId : Nat
deriving DecidableEq

/-!
## Trusted-header authenticator (backend/app/auth/dependencies.py)
-/

/-- Skew tolerance: `INTERNAL_TIME_SKEW_MS = 5 * 60 * 1000`. -/
def INTERNAL_TIME_SKEW_MS : Nat := 5 * 60 * 1000

/-- The wire-level envelope `get_current_user` reads off the request.
`none` models an absent header.  `bodyText` is the UTF-8 decoding of the raw
body, empty for an empty body, matching `raw_body.decode` in the source. -/
structure Envelope where
  userId : Option String
  timestamp : Option String
  signature : Option String
  method : String
  path : String
  bodyText : String
deriving DecidableEq

/-- Model of Python `str.upper()` on ASCII method names (`request.method.upper()`);
written as an explicit character map so it reduces in the kernel. -/
def pyUpper (s : String) : String :=
  String.mk (s.data.map Char.toUpper)

/-- Python falsy test `not header` on an optional header value. -/
def headerFalsy : Option String → Bool
  | none => true
  | some s => s == ""

/-- Python `str.isascii()`: every code point below 128.  This is the
precondition `hmac.compare_digest` enforces on `str` arguments, raising
`TypeError` when either argument contains a non-ASCII character. -/
def strAscii (s : String) : Bool :=
  s.data.all (fun c => c.toNat < 128)

/-- The fresh `User` row built when provisioning a first-seen id
(dependencies.py lines 86-94); `pnow` models `datetime.now(timezone.utc)`. -/
def newUserRow (uid pnow : Nat) : UserRow :=
  { id := uid
    email := "user_" ++ uuidToString uid ++ "@better-auth.com"
    password_hash := ""
    created_at := pnow
    updated_at := pnow }

/-- The resolve-or-provision step (dependencies.py lines 80-97): look the id
up; insert a minimal row only when absent. -/
def provisionUsers (users : List UserRow) (uid pnow : Nat) : List UserRow :=
  match users.find? (fun u => u.id == uid) with
  | some _ => users
  | none => users ++ [newUserRow uid pnow]

/-- Model of `get_current_user`.  `nowMs` models `int(time.time() * 1000)`;
`dbError` true models the `Session` block raising (the `except` swallows the
error, so nothing is committed); `pnow` is the provisioning timestamp.
The constant-time `hmac.compare_digest` is modelled as string equality
guarded by its ASCII precondition: when either argument contains a non-ASCII
character it raises `TypeError`, which no handler catches, observed by the
caller as HTTP 500 "Internal Server Error" (header values are decoded as
latin-1, so a non-ASCII received signature is reachable).  The received
signature is tested first; since the computed digest is always ASCII hex
(`hmacSha256Hex_ascii`) the two orders agree on every input.
Other errors carry the status and detail of the raised `HTTPException`. -/
def getCurrentUser (secret : String) (nowMs : Int) (dbError : Bool) (pnow : Nat)
    (env : Envelope) (db : DBState) : Except (Nat × String) Nat × DBState :=
  if headerFalsy env.userId || headerFalsy env.timestamp || headerFalsy env.signature then
    (.error (401, "Unauthorized"), db)
  else
    let user_id := env.userId.getD ""
    let timestamp := env.timestamp.getD ""
    let signature := env.signature.getD ""
    match pythonUUID user_id with
    | none => (.error (401, "Unauthorized"), db)
    | some user_uuid =>
      match pythonInt timestamp with
      | none => (.error (401, "Unauthorized"), db)
      | some ts_ms =>
        if (nowMs - ts_ms).natAbs > INTERNAL_TIME_SKEW_MS then
          (.error (401, "Unauthorized"), db)
        else
          let body_text := env.bodyText
          let method := pyUpper env.method
          let path := env.path
          let payload := user_id ++ ":" ++ timestamp ++ ":" ++ method ++ ":" ++ path ++ ":" ++ body_text
          let expected := hmacSha256Hex (utf8Bytes secret) (utf8Bytes payload)
          if strAscii signature && strAscii expected then
            if expected = signature then
              (.ok user_uuid,
               if dbError then db else { db with users := provisionUsers db.users user_uuid pnow })
            else
              (.error (401, "Unauthorized"), db)
          else
            (.error (500, "Internal Server Error"), db)

/-!
## Task CRUD routes (backend/app/routes/tasks.py)
-/

/-- Request schema for creating a task (schemas/task.py): only a description;
the body cannot carry a user id at all. -/
structure TaskCreate where
  description : String
deriving DecidableEq

/-- Request schema for updating a task. -/
structure TaskUpdate where
  description : String
deriving DecidableEq

/-- The ownership filter used by every single-task route:
`Task.id == task_id, Task.user_id == current_user_id`. -/
def taskOwnedBy (task_id uid : Nat) (t : TaskRow) : Bool :=
  t.id == task_id && t.user_id == uid

/-- Replace the first row satisfying `p` by `f` of it, as mutating the row
returned by `.first()` and committing does. -/
def updateFirst (p : TaskRow → Bool) (f : TaskRow → TaskRow) : List TaskRow → List TaskRow
  | [] => []
  | t :: ts => if p t then f t :: ts else t :: updateFirst p f ts

/-- GET /api/tasks/: rows where `Task.user_id == current_user_id`. -/
def list_tasks (uid : Nat) (db : DBState) : List TaskRow :=
  db.tasks.filter (fun t => t.user_id == uid)

/-- POST /api/tasks/: insert a row whose `user_id` is the authenticated id;
returns the new row.  `now` models `datetime.utcnow()`. -/
def create_task (uid : Nat) (task_data : TaskCreate) (now : Nat) (db : DBState) :
    TaskRow × DBState :=
  let new_task : TaskRow :=
    { id := db.nextId
      user_id := uid
      description := task_data.description
      completed := false
      created_at := now
      updated_at := now }
  (new_task, { db with tasks := db.tasks ++ [new_task], nextId := db.nextId + 1 })

/-- GET /api/tasks/\x7btask_id\x7d. -/
def get_task (task_id uid : Nat) (db : DBState) : Except (Nat × String) TaskRow :=
  match db.tasks.find? (taskOwnedBy task_id uid) with
  | none => .error (404, "Task not found or access denied")
  | some t => .ok t

/-- PUT /api/tasks/\x7btask_id\x7d: rewrite the description of the owned row. -/
def update_task (task_id uid : Nat) (task_update : TaskUpdate) (now : Nat) (db : DBState) :
    Except (Nat × String) TaskRow × DBState :=
  let rewriteRow := fun (u : TaskRow) => { u with description := task_update.description, updated_at := now }
  match db.tasks.find? (taskOwnedBy task_id uid) with
  | none => (.error (404, "Task not found or access denied"), db)
  | some t =>
      (.ok (rewriteRow t),
       { db with tasks := updateFirst (taskOwnedBy task_id uid) rewriteRow db.tasks })

/-- PATCH /api/tasks/\x7btask_id\x7d/toggle: flip `completed` on the owned row. -/
def toggle_task (task_id uid : Nat) (now : Nat) (db : DBState) :
    Except (Nat × String) TaskRow × DBState :=
  let toggleRow := fun (u : TaskRow) => { u with completed := !u.completed, updated_at := now }
  match db.tasks.find? (taskOwnedBy task_id uid) with
  | none => (.error (404, "Task not found or access denied"), db)
  | some t =>
      (.ok (toggleRow t),
       { db with tasks := updateFirst (taskOwnedBy task_id uid) toggleRow db.tasks })

/-- DELETE /api/tasks/\x7btask_id\x7d: remove the owned row. -/
def delete_task (task_id uid : Nat) (db : DBState) :
    Except (Nat × String) String × DBState :=
  match db.tasks.find? (taskOwnedBy task_id uid) with
  | none => (.error (404, "Task not found or access denied"), db)
  | some _ =>
      (.ok "Task deleted successfully",
       { db with tasks := db.tasks.eraseP (taskOwnedBy task_id uid) })

/-!
## Concrete instances used by counterexamples and witnesses
-/

/-- The shared secret of the spec's concrete scenario. -/
def specSecret : String := "0123456789abcdef0123456789abcdef"

/-- The correctly computed signature of the spec's concrete scenario:
HMAC-SHA256 over the payload "user-42:1700000000000:GET:/api/tasks/:". -/
def c2Sig : String :=
  hmacSha256Hex (utf8Bytes specSecret) (utf8Bytes "user-42:1700000000000:GET:/api/tasks/:")

/-- The envelope of the spec's concrete scenario (user id "user-42"). -/
def c2Env : Envelope :=
  { userId := some "user-42"
    timestamp := some "1700000000000"
    signature := some c2Sig
    method := "GET"
    path := "/api/tasks/"
    bodyText := "" }

/-- A distinct secret for the C3 counterexample. -/
def c3Secret : String := "abcdefabcdefabcdefabcdefabcdefab"

/-- A correctly computed signature for a non-UUID user id "not-a-uuid". -/
def c3Sig : String :=
  hmacSha256Hex (utf8Bytes c3Secret) (utf8Bytes "not-a-uuid:1000:POST:/api/tasks/:x")

/-- Envelope with all three headers, in-skew timestamp, correct signature,
but a user id that does not parse as a UUID. -/
def c3Env : Envelope :=
  { userId := some "not-a-uuid"
    timestamp := some "1000"
    signature := some c3Sig
    method := "POST"
    path := "/api/tasks/"
    bodyText := "x" }

/-- A canonical valid UUID string and its 128-bit value. -/
def validUuidStr : String := "550e8400-e29b-41d4-a716-446655440000"

/-- The value `uuid.UUID(validUuidStr).int`. -/
def validUuidVal : Nat := 0x550e8400e29b41d4a716446655440000

/-- A concrete store for the C1 witness: one task owned by user 1, one by user 2. -/
def c1Db : DBState :=
  { users := []
    tasks := [{ id := 5, user_id := 1, description := "a", completed := false, created_at := 0, updated_at := 0 },
              { id := 6, user_id := 2, description := "b", completed := false, created_at := 0, updated_at := 0 }]
    nextId := 7 }

/-- A concrete store for the C10 witness: task 9 exists but belongs to user 2. -/
def c10Db : DBState :=
  { users := []
    tasks := [{ id := 9, user_id := 2, description := "x", completed := false, created_at := 0, updated_at := 0 }]
    nextId := 10 }

/-- The valid envelope for the C3 witness: canonical UUID id, correctly
computed signature, clock equal to timestamp. -/
def c3wEnv : Envelope :=
  { userId := some validUuidStr
    timestamp := some "1700000000000"
    signature := some (hmacSha256Hex (utf8Bytes c3Secret)
      (utf8Bytes (validUuidStr ++ ":" ++ "1700000000000" ++ ":" ++ pyUpper "GET"
        ++ ":" ++ "/api/tasks/" ++ ":" ++ "")))
    method := "GET"
    path := "/api/tasks/"
    bodyText := "" }

/-- Envelope for the C4 witness, signed with secret "k". -/
def c4Env : Envelope :=
  { userId := some validUuidStr
    timestamp := some "1700000000000"
    signature := some (hmacSha256Hex (utf8Bytes "k")
      (utf8Bytes (validUuidStr ++ ":" ++ "1700000000000" ++ ":" ++ pyUpper "GET"
        ++ ":" ++ "/api/tasks/" ++ ":" ++ "")))
    method := "GET"
    path := "/api/tasks/"
    bodyText := "" }

/-- Envelope for the C6 witness, signed with secret "sec". -/
def c6Env : Envelope :=
  { userId := some validUuidStr
    timestamp := some "5"
    signature := some (hmacSha256Hex (utf8Bytes "sec")
      (utf8Bytes (validUuidStr ++ ":" ++ "5" ++ ":" ++ pyUpper "GET"
        ++ ":" ++ "/api/tasks/" ++ ":" ++ "")))
    method := "GET"
    path := "/api/tasks/"
    bodyText := "" }

/-- Envelope for the C8 witness, signed with secret "w". -/
def c8Env : Envelope :=
  { userId := some validUuidStr
    timestamp := some "3"
    signature := some (hmacSha256Hex (utf8Bytes "w")
      (utf8Bytes (validUuidStr ++ ":" ++ "3" ++ ":" ++ pyUpper "GET"
        ++ ":" ++ "/api/tasks/" ++ ":" ++ "")))
    method := "GET"
    path := "/api/tasks/"
    bodyText := "" }

/-- Envelope and store for the C9 witness. -/
def c9Env : Envelope :=
  { userId := some validUuidStr
    timestamp := some "7"
    signature := some (hmacSha256Hex (utf8Bytes "q")
      (utf8Bytes (validUuidStr ++ ":" ++ "7" ++ ":" ++ pyUpper "GET"
        ++ ":" ++ "/api/tasks/" ++ ":" ++ "")))
    method := "GET"
    path := "/api/tasks/"
    bodyText := "" }

/-- A store that already holds a User row for the valid UUID. -/
def c9Db : DBState :=
  { users := [{ id := validUuidVal, email := "e", password_hash := "", created_at := 0, updated_at := 0 }]
    tasks := []
    nextId := 1 }

/-- A non-ASCII signature header value (latin-1 e-acute, code point 233),
reachable because HTTP header values are decoded as latin-1. -/
def c5Sig : String := String.mk [Char.ofNat 233]

/-- Envelope whose header, UUID, timestamp and skew checks all pass but whose
signature header is non-ASCII. -/
def c5Env : Envelope :=
  { userId := some validUuidStr
    timestamp := some "0"
    signature := some c5Sig
    method := "GET"
    path := "/"
    bodyText := "" }

/-!
## Helper lemmas
-/

/-- The digest always serializes eight words of four bytes: 32 bytes. -/
theorem sha256Bytes_length (msg : List Nat) : (sha256Bytes msg).length = 32 := by
  simp [sha256Bytes, wordBE]

/-- Hex rendering doubles the length. -/
theorem bytesToHexChars_length (l : List Nat) : (bytesToHexChars l).length = 2 * l.length := by
  induction l with
  | nil => rfl
  | cons b bs ih => simp [bytesToHexChars, ih]; omega

/-- An HMAC-SHA256 hexdigest always has 64 characters. -/
theorem hmacSha256Hex_length (key msg : List Nat) : (hmacSha256Hex key msg).length = 64 := by
  show (bytesToHexChars (hmacSha256 key msg)).length = 64
  rw [bytesToHexChars_length]
  have : (hmacSha256 key msg).length = 32 := sha256Bytes_length _
  omega

/-- An HMAC-SHA256 hexdigest is never the empty string. -/
theorem hmacSha256Hex_ne_empty (key msg : List Nat) : hmacSha256Hex key msg ≠ "" := by
  intro h
  have := congrArg String.length h
  rw [hmacSha256Hex_length] at this
  exact absurd this (by decide)

/-- Every byte of a big-endian word serialization is below 256. -/
theorem wordBE_all_lt256 (n : Nat) : (wordBE n).all (fun b => b < 256) = true := by
  simp [wordBE]
  omega

/-- Every digest byte is below 256. -/
theorem sha256Bytes_all_lt256 (m : List Nat) : (sha256Bytes m).all (fun b => b < 256) = true := by
  simp [sha256Bytes, List.all_append, wordBE_all_lt256]

/-- A hex digit character is ASCII. -/
theorem hexDigitChar_ascii (n : Nat) (h : n < 16) : (hexDigitChar n).toNat < 128 := by
  have hc : n = 0 ∨ n = 1 ∨ n = 2 ∨ n = 3 ∨ n = 4 ∨ n = 5 ∨ n = 6 ∨ n = 7 ∨ n = 8 ∨ n = 9
      ∨ n = 10 ∨ n = 11 ∨ n = 12 ∨ n = 13 ∨ n = 14 ∨ n = 15 := by omega
  rcases hc with h | h | h | h | h | h | h | h | h | h | h | h | h | h | h | h <;>
    subst h <;> decide

/-- The hex rendering of a byte list is ASCII. -/
theorem bytesToHexChars_ascii (l : List Nat) (hl : l.all (fun b => b < 256) = true) :
    (bytesToHexChars l).all (fun c => c.toNat < 128) = true := by
  induction l with
  | nil => rfl
  | cons b bs ih =>
    simp only [List.all_cons, Bool.and_eq_true, decide_eq_true_eq] at hl
    simp only [bytesToHexChars, List.all_cons, Bool.and_eq_true, decide_eq_true_eq]
    exact ⟨hexDigitChar_ascii _ (by omega), hexDigitChar_ascii _ (by omega), ih hl.2⟩

/-- An HMAC-SHA256 hexdigest is always ASCII, so `hmac.compare_digest` can
only raise on the received signature. -/
theorem hmacSha256Hex_ascii (key msg : List Nat) : strAscii (hmacSha256Hex key msg) = true := by
  show (bytesToHexChars (hmacSha256 key msg)).all (fun c => c.toNat < 128) = true
  exact bytesToHexChars_ascii _ (sha256Bytes_all_lt256 _)

/-- A string accepted by the UUID parser is nonempty. -/
theorem pythonUUID_ne_empty {s : String} {u : Nat} (h : pythonUUID s = some u) : s ≠ "" := by
  intro hs
  subst hs
  rw [show pythonUUID "" = none from by decide] at h
  cases h

/-- A string accepted by the integer parser is nonempty. -/
theorem pythonInt_ne_empty {s : String} {t : Int} (h : pythonInt s = some t) : s ≠ "" := by
  intro hs
  subst hs
  rw [show pythonInt "" = none from by decide] at h
  cases h

/-- Success path of `get_current_user`: three nonempty headers, a UUID user
id, a parseable in-skew timestamp and a correctly computed signature yield
the parsed UUID; the store is touched only by provisioning. -/
theorem getCurrentUser_ok (secret : String) (nowMs : Int) (dbError : Bool) (pnow : Nat)
    (env : Envelope) (db : DBState) (uidStr tsStr : String) (u : Nat) (ts : Int)
    (hu : env.userId = some uidStr)
    (ht : env.timestamp = some tsStr)
    (hs : env.signature = some (hmacSha256Hex (utf8Bytes secret)
      (utf8Bytes (uidStr ++ ":" ++ tsStr ++ ":" ++ pyUpper env.method ++ ":" ++ env.path
        ++ ":" ++ env.bodyText))))
    (hpu : pythonUUID uidStr = some u)
    (hpt : pythonInt tsStr = some ts)
    (hskew : (nowMs - ts).natAbs ≤ INTERNAL_TIME_SKEW_MS) :
    getCurrentUser secret nowMs dbError pnow env db
      = (.ok u, if dbError then db else { db with users := provisionUsers db.users u pnow }) := by
  have h1 : (uidStr == "") = false := beq_eq_false_iff_ne.mpr (pythonUUID_ne_empty hpu)
  have h2 : (tsStr == "") = false := beq_eq_false_iff_ne.mpr (pythonInt_ne_empty hpt)
  have h3 : (hmacSha256Hex (utf8Bytes secret) (utf8Bytes (uidStr ++ ":" ++ tsStr ++ ":"
      ++ pyUpper env.method ++ ":" ++ env.path ++ ":" ++ env.bodyText)) == "") = false :=
    beq_eq_false_iff_ne.mpr (hmacSha256Hex_ne_empty _ _)
  unfold getCurrentUser
  rw [hu, ht, hs]
  simp only [headerFalsy, h1, h2, h3, Bool.or_self, Bool.or_false, Option.getD_some,
    Bool.false_eq_true, if_false, hpu, hpt]
  rw [if_neg (by omega : ¬ (nowMs - ts).natAbs > INTERNAL_TIME_SKEW_MS)]
  simp [hmacSha256Hex_ascii]

/-- Every run of `get_current_user` fails with exactly `401 Unauthorized`
leaving the store untouched, fails with exactly `500 Internal Server Error`
(the uncaught `compare_digest` TypeError) leaving the store untouched, or
succeeds with the parsed UUID of the `x-user-id` header, provisioning at most
one row. -/
theorem getCurrentUser_shape (secret : String) (nowMs : Int) (dbError : Bool) (pnow : Nat)
    (env : Envelope) (db : DBState) :
    getCurrentUser secret nowMs dbError pnow env db = (.error (401, "Unauthorized"), db)
    ∨ getCurrentUser secret nowMs dbError pnow env db = (.error (500, "Internal Server Error"), db)
    ∨ ∃ u, pythonUUID (env.userId.getD "") = some u ∧
        getCurrentUser secret nowMs dbError pnow env db
          = (.ok u, if dbError then db else { db with users := provisionUsers db.users u pnow }) := by
  simp only [getCurrentUser]
  by_cases hf : (headerFalsy env.userId || headerFalsy env.timestamp || headerFalsy env.signature) = true
  · rw [if_pos hf]
    exact Or.inl rfl
  · rw [if_neg hf]
    cases hpu : pythonUUID (env.userId.getD "") with
    | none => exact Or.inl rfl
    | some u =>
      cases hpt : pythonInt (env.timestamp.getD "") with
      | none => exact Or.inl rfl
      | some ts =>
        dsimp only
        by_cases hskew : (nowMs - ts).natAbs > INTERNAL_TIME_SKEW_MS
        · rw [if_pos hskew]
          exact Or.inl rfl
        · rw [if_neg hskew]
          by_cases hascii : (strAscii (env.signature.getD "")
              && strAscii (hmacSha256Hex (utf8Bytes secret)
                (utf8Bytes ((env.userId.getD "") ++ ":" ++ (env.timestamp.getD "") ++ ":"
                  ++ pyUpper env.method ++ ":" ++ env.path ++ ":" ++ env.bodyText)))) = true
          · rw [if_pos hascii]
            by_cases hsig : hmacSha256Hex (utf8Bytes secret)
                (utf8Bytes ((env.userId.getD "") ++ ":" ++ (env.timestamp.getD "") ++ ":"
                  ++ pyUpper env.method ++ ":" ++ env.path ++ ":" ++ env.bodyText))
                = env.signature.getD ""
            · rw [if_pos hsig]
              exact Or.inr (Or.inr ⟨u, rfl, rfl⟩)
            · rw [if_neg hsig]
              exact Or.inl rfl
          · rw [if_neg hascii]
            exact Or.inr (Or.inl rfl)

/-- Rewriting the first row matched by `p` with a `p`-to-`q`-irrelevant
rewrite leaves the `q`-filtered view of the table unchanged. -/
theorem filter_updateFirst (p q : TaskRow → Bool) (f : TaskRow → TaskRow) (l : List TaskRow)
    (hpq : ∀ t, p t = true → q t = false) (hpf : ∀ t, p t = true → q (f t) = false) :
    (updateFirst p f l).filter q = l.filter q := by
  induction l with
  | nil => rfl
  | cons t ts ih =>
    by_cases hp : p t = true
    · simp [updateFirst, hp, List.filter_cons, hpq t hp, hpf t hp]
    · simp only [updateFirst, hp, if_false, Bool.false_eq_true, List.filter_cons, ih]

/-- Erasing the first row matched by `p` leaves the `q`-filtered view
unchanged when `p` rows are never `q` rows. -/
theorem filter_eraseP (p q : TaskRow → Bool) (l : List TaskRow)
    (hpq : ∀ t, p t = true → q t = false) :
    (l.eraseP p).filter q = l.filter q := by
  induction l with
  | nil => rfl
  | cons t ts ih =>
    by_cases hp : p t = true
    · simp [List.eraseP_cons, hp, List.filter_cons, hpq t hp]
    · simp only [List.eraseP_cons, hp, cond_false, Bool.false_eq_true, List.filter_cons, ih]

/-- Searching an appended list when the front part has no match. -/
theorem find?_append_right (p : UserRow → Bool) (l1 l2 : List UserRow)
    (h : l1.find? p = none) : (l1 ++ l2).find? p = l2.find? p := by
  induction l1 with
  | nil => rfl
  | cons v vs ih =>
    rw [List.find?_cons] at h
    cases hv : p v with
    | true => rw [hv] at h; cases h
    | false =>
      rw [hv] at h
      rw [List.cons_append, List.find?_cons, hv]
      exact ih h

/-- Claim C1: user-isolation invariant.  Every task operation filters by the
authenticated owner id: listed rows and rows returned by get/update/toggle all
belong to the authenticated user; create stores the authenticated id as owner
(the body schema cannot carry an id); and create/update/toggle/delete leave
the set of rows owned by every other user unchanged. -/
theorem C1_user_isolation (uid tid now : Nat) (db : DBState) (task_data : TaskCreate) (upd : TaskUpdate) :
    (∀ t ∈ list_tasks uid db, t.user_id = uid)
    ∧ (create_task uid task_data now db).1.user_id = uid
    ∧ (create_task uid task_data now db).2.tasks.filter (fun t => !(t.user_id == uid))
        = db.tasks.filter (fun t => !(t.user_id == uid))
    ∧ (∀ t, get_task tid uid db = .ok t → t.user_id = uid)
    ∧ (∀ t, (update_task tid uid upd now db).1 = .ok t → t.user_id = uid)
    ∧ (update_task tid uid upd now db).2.tasks.filter (fun t => !(t.user_id == uid))
        = db.tasks.filter (fun t => !(t.user_id == uid))
    ∧ (∀ t, (toggle_task tid uid now db).1 = .ok t → t.user_id = uid)
    ∧ (toggle_task tid uid now db).2.tasks.filter (fun t => !(t.user_id == uid))
        = db.tasks.filter (fun t => !(t.user_id == uid))
    ∧ (delete_task tid uid db).2.tasks.filter (fun t => !(t.user_id == uid))
        = db.tasks.filter (fun t => !(t.user_id == uid)) := by
  refine ⟨?_, rfl, ?_, ?_, ?_, ?_, ?_, ?_, ?_⟩
  · intro t ht
    simp only [list_tasks, List.mem_filter, beq_iff_eq] at ht
    exact ht.2
  · simp [create_task, List.filter_append]
  · intro t h
    unfold get_task at h
    cases hf : db.tasks.find? (taskOwnedBy tid uid) with
    | none => rw [hf] at h; cases h
    | some t0 =>
      rw [hf] at h
      cases h
      have hp := List.find?_some hf
      simp only [taskOwnedBy, Bool.and_eq_true, beq_iff_eq] at hp
      exact hp.2
  · intro t h
    simp only [update_task] at h
    cases hf : db.tasks.find? (taskOwnedBy tid uid) with
    | none => rw [hf] at h; cases h
    | some t0 =>
      rw [hf] at h
      cases h
      have hp := List.find?_some hf
      simp only [taskOwnedBy, Bool.and_eq_true, beq_iff_eq] at hp
      exact hp.2
  · simp only [update_task]
    cases hf : db.tasks.find? (taskOwnedBy tid uid) with
    | none => rfl
    | some t0 =>
      apply filter_updateFirst
      · intro t hp
        simp only [taskOwnedBy, Bool.and_eq_true, beq_iff_eq] at hp
        simp [hp.2]
      · intro t hp
        simp only [taskOwnedBy, Bool.and_eq_true, beq_iff_eq] at hp
        simp [hp.2]
  · intro t h
    simp only [toggle_task] at h
    cases hf : db.tasks.find? (taskOwnedBy tid uid) with
    | none => rw [hf] at h; cases h
    | some t0 =>
      rw [hf] at h
      cases h
      have hp := List.find?_some hf
      simp only [taskOwnedBy, Bool.and_eq_true, beq_iff_eq] at hp
      exact hp.2
  · simp only [toggle_task]
    cases hf : db.tasks.find? (taskOwnedBy tid uid) with
    | none => rfl
    | some t0 =>
      apply filter_updateFirst
      · intro t hp
        simp only [taskOwnedBy, Bool.and_eq_true, beq_iff_eq] at hp
        simp [hp.2]
      · intro t hp
        simp only [taskOwnedBy, Bool.and_eq_true, beq_iff_eq] at hp
        simp [hp.2]
  · simp only [delete_task]
    cases hf : db.tasks.find? (taskOwnedBy tid uid) with
    | none => rfl
    | some t0 =>
      apply filter_eraseP
      intro t hp
      simp only [taskOwnedBy, Bool.and_eq_true, beq_iff_eq] at hp
      simp [hp.2]

/-- Witness for C1 at a concrete store: the listed task of user 1 is owned by
user 1, a created task is owned by the creator, and the task returned by get
is owned by the requester. -/
theorem C1_user_isolation_witness :
    ({ id := 5, user_id := 1, description := "a", completed := false, created_at := 0, updated_at := 0 } : TaskRow).user_id = 1
    ∧ (create_task 1 ⟨"c"⟩ 0 c1Db).1.user_id = 1 := by
  constructor
  · exact (C1_user_isolation 1 5 0 c1Db ⟨"c"⟩ ⟨"d"⟩).1 _ (by decide)
  · exact (C1_user_isolation 1 5 0 c1Db ⟨"c"⟩ ⟨"d"⟩).2.1

/-- Claim C10: when no task with the requested id is owned by the requester —
whether the task does not exist or belongs to another user — get, update,
toggle and delete all return the identical 404 error with detail
"Task not found or access denied", leaving the store unchanged. -/
theorem C10_not_found_indistinguishable (tid uid now : Nat) (db : DBState) (upd : TaskUpdate)
    (h : ∀ t ∈ db.tasks, ¬(t.id = tid ∧ t.user_id = uid)) :
    get_task tid uid db = .error (404, "Task not found or access denied")
    ∧ update_task tid uid upd now db = (.error (404, "Task not found or access denied"), db)
    ∧ toggle_task tid uid now db = (.error (404, "Task not found or access denied"), db)
    ∧ delete_task tid uid db = (.error (404, "Task not found or access denied"), db) := by
  have hf : db.tasks.find? (taskOwnedBy tid uid) = none := by
    rw [List.find?_eq_none]
    intro t ht
    simp only [taskOwnedBy, Bool.and_eq_true, beq_iff_eq]
    exact h t ht
  exact ⟨by simp [get_task, hf], by simp [update_task, hf], by simp [toggle_task, hf],
    by simp [delete_task, hf]⟩

/-- Witness for C10: task 9 exists but is owned by user 2; user 1 requesting
it by id receives the same 404 for get and delete. -/
theorem C10_witness :
    get_task 9 1 c10Db = .error (404, "Task not found or access denied")
    ∧ delete_task 9 1 c10Db = (.error (404, "Task not found or access denied"), c10Db) := by
  have h := C10_not_found_indistinguishable 9 1 0 c10Db ⟨"d"⟩ (by decide)
  exact ⟨h.1, h.2.2.2⟩

/-- Claim C2 counterexample: the spec's concrete scenario — secret
"0123456789abcdef0123456789abcdef", user id "user-42", timestamp
"1700000000000", method GET, path /api/tasks/, empty body, correctly signed,
clock fixed at the timestamp — is rejected with 401 Unauthorized by the code
(the `UUID(user_id)` parse fails), not accepted as the claim states. -/
theorem C2_counterexample :
    getCurrentUser specSecret 1700000000000 false 0 c2Env ⟨[], [], 1⟩
      = (.error (401, "Unauthorized"), ⟨[], [], 1⟩)
    ∧ c2Env.signature = some (hmacSha256Hex (utf8Bytes specSecret)
        (utf8Bytes ("user-42" ++ ":" ++ "1700000000000" ++ ":" ++ pyUpper "GET"
          ++ ":" ++ "/api/tasks/" ++ ":" ++ ""))) := by
  refine ⟨by decide, ?_⟩
  show some c2Sig = _
  unfold c2Sig
  rw [show "user-42:1700000000000:GET:/api/tasks/:"
      = "user-42" ++ ":" ++ "1700000000000" ++ ":" ++ pyUpper "GET"
        ++ ":" ++ "/api/tasks/" ++ ":" ++ "" from by decide]

/-- Claim C2 (amended): the authenticator does not treat the external user id
as opaque — it parses it with `UUID(...)` and rejects any id that does not
parse as a UUID with 401 Unauthorized, regardless of the signature and
timestamp; in particular the spec's "user-42" scenario fails. -/
theorem C2_amended (secret : String) (nowMs : Int) (dbError : Bool) (pnow : Nat)
    (env : Envelope) (db : DBState)
    (h : pythonUUID (env.userId.getD "") = none) :
    (getCurrentUser secret nowMs dbError pnow env db).1 = .error (401, "Unauthorized") := by
  simp only [getCurrentUser, h]
  by_cases hf : (headerFalsy env.userId || headerFalsy env.timestamp || headerFalsy env.signature) = true
  · rw [if_pos hf]
  · rw [if_neg hf]

/-- Witness for C2 (amended) at the concrete non-UUID id "abc". -/
theorem C2_witness :
    pythonUUID ((some "abc" : Option String).getD "") = none
    ∧ (getCurrentUser "s" 0 false 0 ⟨some "abc", some "0", some "x", "GET", "/", ""⟩ ⟨[], [], 1⟩).1
        = .error (401, "Unauthorized") :=
  ⟨by decide,
   C2_amended "s" 0 false 0 ⟨some "abc", some "0", some "x", "GET", "/", ""⟩ ⟨[], [], 1⟩ (by decide)⟩

/-- Claim C3 counterexample: an envelope with all three headers present,
timestamp within skew of the clock, and a correctly computed signature, whose
user id "not-a-uuid" is not a UUID, is rejected with 401 instead of
succeeding as the claim states. -/
theorem C3_counterexample :
    getCurrentUser c3Secret 1000 false 0 c3Env ⟨[], [], 1⟩
      = (.error (401, "Unauthorized"), ⟨[], [], 1⟩)
    ∧ c3Env.signature = some (hmacSha256Hex (utf8Bytes c3Secret)
        (utf8Bytes ("not-a-uuid" ++ ":" ++ "1000" ++ ":" ++ pyUpper "POST"
          ++ ":" ++ "/api/tasks/" ++ ":" ++ "x")))
    ∧ pythonInt "1000" = some 1000 ∧ ((1000 : Int) - 1000).natAbs ≤ INTERNAL_TIME_SKEW_MS := by
  refine ⟨by decide, ?_, by decide, by decide⟩
  show some c3Sig = _
  unfold c3Sig
  rw [show "not-a-uuid:1000:POST:/api/tasks/:x"
      = "not-a-uuid" ++ ":" ++ "1000" ++ ":" ++ pyUpper "POST"
        ++ ":" ++ "/api/tasks/" ++ ":" ++ "x" from by decide]

/-- Claim C3 (amended): for every envelope whose three headers are present,
whose user id parses as a UUID, whose timestamp parses and is within skew of
the verifier's clock, and whose signature is the lowercase-hex HMAC-SHA256 of
the colon-joined payload (id, timestamp as received, uppercased method,
path, UTF-8 body text), authentication succeeds carrying the UUID parsed
from the x-user-id header. -/
theorem C3_amended (secret : String) (nowMs : Int) (dbError : Bool) (pnow : Nat)
    (env : Envelope) (db : DBState) (uidStr tsStr : String) (u : Nat) (ts : Int)
    (hu : env.userId = some uidStr)
    (ht : env.timestamp = some tsStr)
    (hs : env.signature = some (hmacSha256Hex (utf8Bytes secret)
      (utf8Bytes (uidStr ++ ":" ++ tsStr ++ ":" ++ pyUpper env.method ++ ":" ++ env.path
        ++ ":" ++ env.bodyText))))
    (hpu : pythonUUID uidStr = some u)
    (hpt : pythonInt tsStr = some ts)
    (hskew : (nowMs - ts).natAbs ≤ INTERNAL_TIME_SKEW_MS) :
    (getCurrentUser secret nowMs dbError pnow env db).1 = .ok u := by
  rw [getCurrentUser_ok secret nowMs dbError pnow env db uidStr tsStr u ts hu ht hs hpu hpt hskew]

/-- Witness for C3 (amended): the concrete valid envelope authenticates as
the UUID value of its x-user-id header. -/
theorem C3_witness :
    (getCurrentUser c3Secret 1700000000000 false 0 c3wEnv ⟨[], [], 1⟩).1 = .ok validUuidVal :=
  C3_amended c3Secret 1700000000000 false 0 c3wEnv ⟨[], [], 1⟩ validUuidStr "1700000000000"
    validUuidVal 1700000000000 rfl rfl rfl (by decide) (by decide) (by decide)

/-- Claim C4: the skew check is inclusive with default tolerance 300000 ms —
at `|now - ts| = skew` the check passes (a correctly signed envelope
authenticates), and at `|now - ts| = skew + 1` the result is Unauthorized. -/
theorem C4_skew_boundary :
    INTERNAL_TIME_SKEW_MS = 300000
    ∧ (∀ (secret : String) (nowMs : Int) (dbError : Bool) (pnow : Nat) (env : Envelope)
        (db : DBState) (uidStr tsStr : String) (u : Nat) (ts : Int),
        env.userId = some uidStr → env.timestamp = some tsStr →
        env.signature = some (hmacSha256Hex (utf8Bytes secret)
          (utf8Bytes (uidStr ++ ":" ++ tsStr ++ ":" ++ pyUpper env.method ++ ":" ++ env.path
            ++ ":" ++ env.bodyText))) →
        pythonUUID uidStr = some u → pythonInt tsStr = some ts →
        (nowMs - ts).natAbs = INTERNAL_TIME_SKEW_MS →
        (getCurrentUser secret nowMs dbError pnow env db).1 = .ok u)
    ∧ (∀ (secret : String) (nowMs : Int) (dbError : Bool) (pnow : Nat) (env : Envelope)
        (db : DBState) (tsStr : String) (ts : Int),
        env.timestamp = some tsStr → pythonInt tsStr = some ts →
        (nowMs - ts).natAbs = INTERNAL_TIME_SKEW_MS + 1 →
        (getCurrentUser secret nowMs dbError pnow env db).1 = .error (401, "Unauthorized")) := by
  refine ⟨rfl, ?_, ?_⟩
  · intro secret nowMs dbError pnow env db uidStr tsStr u ts hu ht hs hpu hpt hskew
    rw [getCurrentUser_ok secret nowMs dbError pnow env db uidStr tsStr u ts hu ht hs hpu hpt
      (by omega)]
  · intro secret nowMs dbError pnow env db tsStr ts ht hpt hskew
    simp only [getCurrentUser, ht, Option.getD_some, hpt]
    by_cases hf : (headerFalsy env.userId || headerFalsy (some tsStr) || headerFalsy env.signature) = true
    · rw [if_pos hf]
    · rw [if_neg hf]
      cases hpu2 : pythonUUID (env.userId.getD "") with
      | none => rfl
      | some u =>
        dsimp only
        rw [if_pos (by omega : (nowMs - ts).natAbs > INTERNAL_TIME_SKEW_MS)]

/-- Witness for C4: the same correctly signed envelope authenticates with the
clock exactly 300000 ms after the timestamp and is rejected at 300001 ms. -/
theorem C4_witness :
    (getCurrentUser "k" 1700000300000 false 0 c4Env ⟨[], [], 1⟩).1 = .ok validUuidVal
    ∧ (getCurrentUser "k" 1700000300001 false 0 c4Env ⟨[], [], 1⟩).1
        = .error (401, "Unauthorized") :=
  ⟨C4_skew_boundary.2.1 "k" 1700000300000 false 0 c4Env ⟨[], [], 1⟩ validUuidStr
      "1700000000000" validUuidVal 1700000000000 rfl rfl rfl (by decide) (by decide) (by decide),
   C4_skew_boundary.2.2 "k" 1700000300001 false 0 c4Env ⟨[], [], 1⟩
      "1700000000000" 1700000000000 rfl (by decide) (by decide)⟩

/-- Claim C5 counterexample: the failure outcome is not unique.  An envelope
whose header, UUID, timestamp and skew checks all pass but whose signature
header is the non-ASCII latin-1 string `c5Sig` (certainly a mismatch —
correct signatures are ASCII hex) makes `hmac.compare_digest` raise
TypeError, observed as 500 Internal Server Error, not the claimed 401. -/
theorem C5_counterexample :
    getCurrentUser "k" 0 false 0 c5Env ⟨[], [], 1⟩
      = (.error (500, "Internal Server Error"), ⟨[], [], 1⟩)
    ∧ ((500, "Internal Server Error") : Nat × String) ≠ (401, "Unauthorized")
    ∧ strAscii c5Sig = false :=
  ⟨by decide, by decide, by decide⟩

/-- Claim C5 (amended): the authenticator has two externally observable
failure outcomes.  Every run is success, 401 Unauthorized (store untouched),
or 500 Internal Server Error; the four claimed causes — missing or empty
header, unparsable timestamp, timestamp beyond skew, and a mismatching ASCII
signature — all produce the identical 401 Unauthorized and remain
indistinguishable, while a non-ASCII signature header that reaches the
comparison produces 500 (the uncaught TypeError of `hmac.compare_digest`). -/
theorem C5_amended :
    (∀ (secret : String) (nowMs : Int) (dbError : Bool) (pnow : Nat) (env : Envelope)
        (db : DBState),
      (∃ u, (getCurrentUser secret nowMs dbError pnow env db).1 = .ok u)
      ∨ (getCurrentUser secret nowMs dbError pnow env db).1 = .error (401, "Unauthorized")
      ∨ (getCurrentUser secret nowMs dbError pnow env db).1 = .error (500, "Internal Server Error"))
    ∧ (∀ (secret : String) (nowMs : Int) (dbError : Bool) (pnow : Nat) (env : Envelope)
        (db : DBState),
        (headerFalsy env.userId || headerFalsy env.timestamp || headerFalsy env.signature) = true →
        getCurrentUser secret nowMs dbError pnow env db = (.error (401, "Unauthorized"), db))
    ∧ (∀ (secret : String) (nowMs : Int) (dbError : Bool) (pnow : Nat) (env : Envelope)
        (db : DBState) (tsStr : String),
        env.timestamp = some tsStr → pythonInt tsStr = none →
        getCurrentUser secret nowMs dbError pnow env db = (.error (401, "Unauthorized"), db))
    ∧ (∀ (secret : String) (nowMs : Int) (dbError : Bool) (pnow : Nat) (env : Envelope)
        (db : DBState) (tsStr : String) (ts : Int),
        env.timestamp = some tsStr → pythonInt tsStr = some ts →
        (nowMs - ts).natAbs > INTERNAL_TIME_SKEW_MS →
        getCurrentUser secret nowMs dbError pnow env db = (.error (401, "Unauthorized"), db))
    ∧ (∀ (secret : String) (nowMs : Int) (dbError : Bool) (pnow : Nat) (env : Envelope)
        (db : DBState) (uidStr tsStr sig : String) (u : Nat) (ts : Int),
        env.userId = some uidStr → env.timestamp = some tsStr → env.signature = some sig →
        pythonUUID uidStr = some u → pythonInt tsStr = some ts →
        (nowMs - ts).natAbs ≤ INTERNAL_TIME_SKEW_MS →
        strAscii sig = true →
        sig ≠ hmacSha256Hex (utf8Bytes secret)
          (utf8Bytes (uidStr ++ ":" ++ tsStr ++ ":" ++ pyUpper env.method ++ ":" ++ env.path
            ++ ":" ++ env.bodyText)) →
        getCurrentUser secret nowMs dbError pnow env db = (.error (401, "Unauthorized"), db))
    ∧ (∀ (secret : String) (nowMs : Int) (dbError : Bool) (pnow : Nat) (env : Envelope)
        (db : DBState) (uidStr tsStr sig : String) (u : Nat) (ts : Int),
        env.userId = some uidStr → env.timestamp = some tsStr → env.signature = some sig →
        pythonUUID uidStr = some u → pythonInt tsStr = some ts →
        (nowMs - ts).natAbs ≤ INTERNAL_TIME_SKEW_MS →
        strAscii sig = false →
        getCurrentUser secret nowMs dbError pnow env db
          = (.error (500, "Internal Server Error"), db)) := by
  refine ⟨?_, ?_, ?_, ?_, ?_, ?_⟩
  · intro secret nowMs dbError pnow env db
    rcases getCurrentUser_shape secret nowMs dbError pnow env db with h | h | ⟨u, _, h⟩
    · exact Or.inr (Or.inl (by rw [h]))
    · exact Or.inr (Or.inr (by rw [h]))
    · exact Or.inl ⟨u, by rw [h]⟩
  · intro secret nowMs dbError pnow env db hf
    simp only [getCurrentUser]
    rw [if_pos hf]
  · intro secret nowMs dbError pnow env db tsStr ht hpt
    simp only [getCurrentUser, ht, Option.getD_some, hpt]
    by_cases hf : (headerFalsy env.userId || headerFalsy (some tsStr) || headerFalsy env.signature) = true
    · rw [if_pos hf]
    · rw [if_neg hf]
      cases hpu2 : pythonUUID (env.userId.getD "") with
      | none => rfl
      | some u => rfl
  · intro secret nowMs dbError pnow env db tsStr ts ht hpt hskew
    simp only [getCurrentUser, ht, Option.getD_some, hpt]
    by_cases hf : (headerFalsy env.userId || headerFalsy (some tsStr) || headerFalsy env.signature) = true
    · rw [if_pos hf]
    · rw [if_neg hf]
      cases hpu2 : pythonUUID (env.userId.getD "") with
      | none => rfl
      | some u =>
        dsimp only
        rw [if_pos hskew]
  · intro secret nowMs dbError pnow env db uidStr tsStr sig u ts hu ht hsg hpu hpt hskew hasc hne
    simp only [getCurrentUser, hu, ht, hsg, Option.getD_some, hpu, hpt]
    by_cases hf : (headerFalsy (some uidStr) || headerFalsy (some tsStr) || headerFalsy (some sig)) = true
    · rw [if_pos hf]
    · rw [if_neg hf]
      rw [if_neg (by omega : ¬ (nowMs - ts).natAbs > INTERNAL_TIME_SKEW_MS)]
      rw [if_pos (by simp [hasc, hmacSha256Hex_ascii])]
      rw [if_neg (fun he => hne he.symm)]
  · intro secret nowMs dbError pnow env db uidStr tsStr sig u ts hu ht hsg hpu hpt hskew hasc
    have h1 : (uidStr == "") = false := beq_eq_false_iff_ne.mpr (pythonUUID_ne_empty hpu)
    have h2 : (tsStr == "") = false := beq_eq_false_iff_ne.mpr (pythonInt_ne_empty hpt)
    have h3 : (sig == "") = false := by
      refine beq_eq_false_iff_ne.mpr ?_
      intro hs
      subst hs
      exact absurd hasc (by decide)
    simp only [getCurrentUser, hu, ht, hsg, headerFalsy, h1, h2, h3, Bool.or_self,
      Bool.or_false, Option.getD_some, Bool.false_eq_true, if_false, hpu, hpt]
    rw [if_neg (by omega : ¬ (nowMs - ts).natAbs > INTERNAL_TIME_SKEW_MS)]
    rw [if_neg (by simp [hasc])]

/-- Witness for C5 (amended): the four 401 causes at concrete envelopes all
yield the identical rejection, and the non-ASCII signature yields 500. -/
theorem C5_witness :
    getCurrentUser "k" 0 false 0 ⟨none, some "0", some "s", "GET", "/", ""⟩ ⟨[], [], 1⟩
      = (.error (401, "Unauthorized"), ⟨[], [], 1⟩)
    ∧ getCurrentUser "k" 0 false 0 ⟨some "a", some "xx", some "s", "GET", "/", ""⟩ ⟨[], [], 1⟩
      = (.error (401, "Unauthorized"), ⟨[], [], 1⟩)
    ∧ getCurrentUser "k" 300001 false 0 ⟨some "a", some "0", some "s", "GET", "/", ""⟩ ⟨[], [], 1⟩
      = (.error (401, "Unauthorized"), ⟨[], [], 1⟩)
    ∧ getCurrentUser "k" 0 false 0 ⟨some validUuidStr, some "0", some "x", "GET", "/", ""⟩ ⟨[], [], 1⟩
      = (.error (401, "Unauthorized"), ⟨[], [], 1⟩)
    ∧ getCurrentUser "k" 0 false 0 c5Env ⟨[], [], 1⟩
      = (.error (500, "Internal Server Error"), ⟨[], [], 1⟩) := by
  refine ⟨?_, ?_, ?_, ?_, ?_⟩
  · exact C5_amended.2.1 "k" 0 false 0 _ _ (by decide)
  · exact C5_amended.2.2.1 "k" 0 false 0 _ _ "xx" rfl (by decide)
  · exact C5_amended.2.2.2.1 "k" 300001 false 0 _ _ "0" 0 rfl (by decide) (by decide)
  · refine C5_amended.2.2.2.2.1 "k" 0 false 0 _ _ validUuidStr "0" "x" validUuidVal 0
      rfl rfl rfl (by decide) (by decide) (by decide) (by decide) ?_
    intro he
    have hlen := congrArg String.length he
    rw [hmacSha256Hex_length] at hlen
    exact absurd hlen (by decide)
  · exact C5_amended.2.2.2.2.2 "k" 0 false 0 c5Env _ validUuidStr "0" c5Sig validUuidVal 0
      rfl rfl rfl (by decide) (by decide) (by decide) (by decide)

/-- Claim C6: a failing resolve-or-provision step never changes the
authentication outcome — the returned value is identical whether or not the
session block raises, and a fully valid envelope still authenticates (with
the store rolled back unchanged) when it does raise. -/
theorem C6_provisioning_error_swallowed :
    (∀ (secret : String) (nowMs : Int) (pnow : Nat) (env : Envelope) (db : DBState),
      (getCurrentUser secret nowMs true pnow env db).1
        = (getCurrentUser secret nowMs false pnow env db).1)
    ∧ (∀ (secret : String) (nowMs : Int) (pnow : Nat) (env : Envelope) (db : DBState)
        (uidStr tsStr : String) (u : Nat) (ts : Int),
        env.userId = some uidStr → env.timestamp = some tsStr →
        env.signature = some (hmacSha256Hex (utf8Bytes secret)
          (utf8Bytes (uidStr ++ ":" ++ tsStr ++ ":" ++ pyUpper env.method ++ ":" ++ env.path
            ++ ":" ++ env.bodyText))) →
        pythonUUID uidStr = some u → pythonInt tsStr = some ts →
        (nowMs - ts).natAbs ≤ INTERNAL_TIME_SKEW_MS →
        (getCurrentUser secret nowMs true pnow env db).1 = .ok u
        ∧ (getCurrentUser secret nowMs true pnow env db).2 = db) := by
  constructor
  · intro secret nowMs pnow env db
    simp only [getCurrentUser]
    by_cases hf : (headerFalsy env.userId || headerFalsy env.timestamp || headerFalsy env.signature) = true
    · rw [if_pos hf, if_pos hf]
    · rw [if_neg hf, if_neg hf]
      cases hpu : pythonUUID (env.userId.getD "") with
      | none => rfl
      | some u =>
        cases hpt : pythonInt (env.timestamp.getD "") with
        | none => rfl
        | some ts =>
          dsimp only
          by_cases hskew : (nowMs - ts).natAbs > INTERNAL_TIME_SKEW_MS
          · rw [if_pos hskew, if_pos hskew]
          · rw [if_neg hskew, if_neg hskew]
            by_cases hascii : (strAscii (env.signature.getD "")
                && strAscii (hmacSha256Hex (utf8Bytes secret)
                  (utf8Bytes ((env.userId.getD "") ++ ":" ++ (env.timestamp.getD "") ++ ":"
                    ++ pyUpper env.method ++ ":" ++ env.path ++ ":" ++ env.bodyText)))) = true
            · rw [if_pos hascii, if_pos hascii]
              by_cases hsig : hmacSha256Hex (utf8Bytes secret)
                  (utf8Bytes ((env.userId.getD "") ++ ":" ++ (env.timestamp.getD "") ++ ":"
                    ++ pyUpper env.method ++ ":" ++ env.path ++ ":" ++ env.bodyText))
                  = env.signature.getD ""
              · rw [if_pos hsig, if_pos hsig]
              · rw [if_neg hsig, if_neg hsig]
            · rw [if_neg hascii, if_neg hascii]
  · intro secret nowMs pnow env db uidStr tsStr u ts hu ht hs hpu hpt hskew
    have h := getCurrentUser_ok secret nowMs true pnow env db uidStr tsStr u ts hu ht hs hpu hpt hskew
    exact ⟨by rw [h], by rw [h]; rfl⟩

/-- Witness for C6: the valid envelope authenticates even when the session
block raises, and the store is unchanged. -/
theorem C6_witness :
    (getCurrentUser "sec" 5 true 0 c6Env ⟨[], [], 1⟩).1 = .ok validUuidVal
    ∧ (getCurrentUser "sec" 5 true 0 c6Env ⟨[], [], 1⟩).2 = ⟨[], [], 1⟩ :=
  C6_provisioning_error_swallowed.2 "sec" 5 0 c6Env ⟨[], [], 1⟩ validUuidStr "5"
    validUuidVal 5 rfl rfl rfl (by decide) (by decide) (by decide)

/-- Claim C7 (code bug): `Settings.validate` does raise on a missing or short
secret, but the module-level code of config.py wraps the call in try/except,
prints the failure and continues, so the import completes and the process
never aborts at startup: with an absent secret the startup outcome is
`started` with a warning, never `aborted`. -/
theorem C7_startup_does_not_abort :
    (∀ s : Settings, s.BETTER_AUTH_SECRET.length < 32 → ∃ e, s.validate = .error e)
    ∧ configStartup ⟨"postgresql://db", ""⟩
        = .started (some ("Configuration validation failed: "
            ++ "Missing required environment variables: BETTER_AUTH_SECRET"))
    ∧ (∀ (s : Settings) (m : String), configStartup s ≠ .aborted m) := by
  refine ⟨?_, by decide, ?_⟩
  · intro s hlen
    simp only [Settings.validate]
    by_cases hd : s.DATABASE_URL = "" <;> by_cases hsec : s.BETTER_AUTH_SECRET = "" <;>
      simp [hd, hsec, hlen]
  · intro s m h
    unfold configStartup at h
    cases hv : s.validate with
    | ok v => cases v; rw [hv] at h; simp at h
    | error e => rw [hv] at h; simp at h

/-- Witness for C7: a five-character secret makes `validate` raise. -/
theorem C7_witness :
    (∃ e, (⟨"postgresql://db", "short"⟩ : Settings).validate = .error e)
    ∧ configStartup ⟨"postgresql://db", ""⟩
        = .started (some ("Configuration validation failed: "
            ++ "Missing required environment variables: BETTER_AUTH_SECRET")) :=
  ⟨C7_startup_does_not_abort.1 ⟨"postgresql://db", "short"⟩ (by decide),
   C7_startup_does_not_abort.2.1⟩

/-- Claim C8: resolve-or-provision is idempotent.  From a store with no User
row for a fresh id, the first authenticate call appends exactly one row for
that id, the second call with the same valid envelope leaves the users table
unchanged, and the final store holds exactly one row for the id. -/
theorem C8_provision_idempotent (secret : String) (nowMs : Int) (pnow pnow2 : Nat)
    (env : Envelope) (db : DBState) (uidStr tsStr : String) (u : Nat) (ts : Int)
    (hu : env.userId = some uidStr)
    (ht : env.timestamp = some tsStr)
    (hs : env.signature = some (hmacSha256Hex (utf8Bytes secret)
      (utf8Bytes (uidStr ++ ":" ++ tsStr ++ ":" ++ pyUpper env.method ++ ":" ++ env.path
        ++ ":" ++ env.bodyText))))
    (hpu : pythonUUID uidStr = some u)
    (hpt : pythonInt tsStr = some ts)
    (hskew : (nowMs - ts).natAbs ≤ INTERNAL_TIME_SKEW_MS)
    (hfresh : ∀ v ∈ db.users, v.id ≠ u) :
    ((getCurrentUser secret nowMs false pnow env db).2).users
        = db.users ++ [newUserRow u pnow]
    ∧ ((getCurrentUser secret nowMs false pnow2 env
          (getCurrentUser secret nowMs false pnow env db).2).2).users
        = db.users ++ [newUserRow u pnow]
    ∧ ((getCurrentUser secret nowMs false pnow2 env
          (getCurrentUser secret nowMs false pnow env db).2).2).users.countP
            (fun v => v.id == u) = 1 := by
  have hfind : db.users.find? (fun v => v.id == u) = none := by
    rw [List.find?_eq_none]
    intro v hv
    simp [hfresh v hv]
  have husers1 : provisionUsers db.users u pnow = db.users ++ [newUserRow u pnow] := by
    unfold provisionUsers
    rw [hfind]
  have hprov2 : provisionUsers (db.users ++ [newUserRow u pnow]) u pnow2
      = db.users ++ [newUserRow u pnow] := by
    unfold provisionUsers
    rw [find?_append_right _ _ _ hfind]
    simp [newUserRow, List.find?_cons]
  have h1 := getCurrentUser_ok secret nowMs false pnow env db uidStr tsStr u ts
    hu ht hs hpu hpt hskew
  have hdb1 : (getCurrentUser secret nowMs false pnow env db).2
      = { db with users := provisionUsers db.users u pnow } := by
    rw [h1]
    rfl
  have h2 := getCurrentUser_ok secret nowMs false pnow2 env
    ((getCurrentUser secret nowMs false pnow env db).2) uidStr tsStr u ts
    hu ht hs hpu hpt hskew
  have hdb2 : (getCurrentUser secret nowMs false pnow2 env
        (getCurrentUser secret nowMs false pnow env db).2).2
      = { (getCurrentUser secret nowMs false pnow env db).2 with
          users := provisionUsers ((getCurrentUser secret nowMs false pnow env db).2).users
            u pnow2 } := by
    rw [h2]
    rfl
  have hall : ((getCurrentUser secret nowMs false pnow2 env
        (getCurrentUser secret nowMs false pnow env db).2).2).users
      = db.users ++ [newUserRow u pnow] := by
    rw [hdb2, hdb1]
    dsimp only
    rw [husers1, hprov2]
  refine ⟨by rw [hdb1]; exact husers1, hall, ?_⟩
  rw [hall, List.countP_append]
  have h0 : db.users.countP (fun v => v.id == u) = 0 :=
    List.countP_eq_zero.mpr (fun v hv => by simp [hfresh v hv])
  rw [h0]
  simp [newUserRow, List.countP_cons]

/-- Witness for C8: from an empty store, two authenticate calls with the same
valid envelope leave exactly one row for the new id. -/
theorem C8_witness :
    ((getCurrentUser "w" 3 false 0 c8Env ⟨[], [], 1⟩).2).users
        = [] ++ [newUserRow validUuidVal 0]
    ∧ ((getCurrentUser "w" 3 false 0 c8Env
          (getCurrentUser "w" 3 false 0 c8Env ⟨[], [], 1⟩).2).2).users.countP
            (fun v => v.id == validUuidVal) = 1 := by
  have h := C8_provision_idempotent "w" 3 0 0 c8Env ⟨[], [], 1⟩ validUuidStr "3"
    validUuidVal 3 rfl rfl rfl (by decide) (by decide) (by decide) (by simp)
  exact ⟨h.1, h.2.2⟩

/-- Claim C9: frame condition of authenticate — tasks and the id sequence are
never touched; the users table is either unchanged or extended by exactly one
new row for the authenticated id (only when no row for that id existed); and
when a row for the authenticated id already exists the whole store is
returned unchanged. -/
theorem C9_frame (secret : String) (nowMs : Int) (dbError : Bool) (pnow : Nat)
    (env : Envelope) (db : DBState) :
    ((getCurrentUser secret nowMs dbError pnow env db).2).tasks = db.tasks
    ∧ ((getCurrentUser secret nowMs dbError pnow env db).2).nextId = db.nextId
    ∧ (((getCurrentUser secret nowMs dbError pnow env db).2).users = db.users
        ∨ ∃ u, (getCurrentUser secret nowMs dbError pnow env db).1 = .ok u
            ∧ (∀ v ∈ db.users, v.id ≠ u)
            ∧ ((getCurrentUser secret nowMs dbError pnow env db).2).users
                = db.users ++ [newUserRow u pnow])
    ∧ (∀ u, (getCurrentUser secret nowMs dbError pnow env db).1 = .ok u →
        (∃ v ∈ db.users, v.id = u) →
        (getCurrentUser secret nowMs dbError pnow env db).2 = db) := by
  rcases getCurrentUser_shape secret nowMs dbError pnow env db with h | h | ⟨u, hpu, h⟩
  · rw [h]
    exact ⟨rfl, rfl, Or.inl rfl, fun _ _ _ => rfl⟩
  · rw [h]
    exact ⟨rfl, rfl, Or.inl rfl, fun _ _ _ => rfl⟩
  · rw [h]
    by_cases hde : dbError = true
    · subst hde
      exact ⟨rfl, rfl, Or.inl rfl, fun _ _ _ => rfl⟩
    · have hde2 : dbError = false := by
        cases dbError
        · rfl
        · exact absurd rfl hde
      subst hde2
      cases hfind : db.users.find? (fun v => v.id == u) with
      | some v0 =>
        have husers : provisionUsers db.users u pnow = db.users := by
          unfold provisionUsers
          rw [hfind]
        refine ⟨rfl, rfl, Or.inl ?_, fun u2 hok hex => ?_⟩
        · exact husers
        · show ({ db with users := provisionUsers db.users u pnow } : DBState) = db
          rw [husers]
      | none =>
        have husers : provisionUsers db.users u pnow = db.users ++ [newUserRow u pnow] := by
          unfold provisionUsers
          rw [hfind]
        refine ⟨rfl, rfl, Or.inr ⟨u, rfl, ?_, ?_⟩, fun u2 hok hex => ?_⟩
        · intro v hv he
          have hb := List.find?_eq_none.mp hfind v hv
          simp [he] at hb
        · exact husers
        · have hu2 : u = u2 := by injection hok
          subst hu2
          rcases hex with ⟨v, hv, he⟩
          have hb := List.find?_eq_none.mp hfind v hv
          simp [he] at hb

/-- Witness for C9: when a User row for the authenticated id already exists,
the returned store is the input store. -/
theorem C9_witness :
    (getCurrentUser "q" 7 false 0 c9Env c9Db).2 = c9Db := by
  refine (C9_frame "q" 7 false 0 c9Env c9Db).2.2.2 validUuidVal ?_ ?_
  · exact congrArg Prod.fst (getCurrentUser_ok "q" 7 false 0 c9Env c9Db validUuidStr "7"
      validUuidVal 7 rfl rfl rfl (by decide) (by decide) (by decide))
  · exact ⟨{ id := validUuidVal, email := "e", password_hash := "", created_at := 0, updated_at := 0 },
      by simp [c9Db], rfl⟩
